import Mathlib

/-!
# Verification of the VR-Agent calendar server

A shallow embedding of the repository (app.py, auth_utils.py,
calendar_service.py, function_specs.py, schemas.py) in Lean 4.

External collaborators (the OpenAI completion service, the Google OAuth
provider, the Google Calendar API, the filesystem) are modelled as
oracles: plain function parameters whose results are quantified over in
the theorems.  Python exceptions are modelled with `Except PyExn`;
Python's `try/except` becomes the explicit `pyTry` combinator, so that
"no uncaught exception" is a provable statement rather than a typing
artifact.  Python dictionaries become association lists with
replace-on-insert semantics; the credential files under `credentials/`
become an association list from file key (the part of the path that the
code derives from the user id) to file content.
-/

/-- A Python exception, carrying the text that `str(e)` renders. -/
inductive PyExn where
  /-- `TypeError`, e.g. from keyword-argument binding at a call site. -/
  | typeError (text : String)
  /-- `json.JSONDecodeError` from `json.loads`. -/
  | jsonError (text : String)
  /-- `googleapiclient.errors.HttpError` from a calendar API call. -/
  | httpError (text : String)
  /-- any other exception (network faults, parse faults, ...). -/
  | other (text : String)
deriving Repr, DecidableEq

/-- The text `str(e)` renders for an exception. -/
def PyExn.msg : PyExn → String
  | .typeError t => t
  | .jsonError t => t
  | .httpError t => t
  | .other t => t

/-- The parsed content of a Google OAuth credential bundle: the fields of
`google.oauth2.credentials.Credentials` that this repository inspects
(`expired`, `refresh_token`); the access token stands for the rest of the
opaque token material.  `expiry` is an absolute timestamp in model time
(`none` = no expiry recorded). -/
structure CredBundle where
  token : String
  refresh_token : Option String
  expiry : Option Nat
deriving Repr, DecidableEq

/-- `Credentials.expired`: true when an expiry is recorded and it is not
later than the current time (the provider library's clock-skew constant is
absorbed into the model's `now`). -/
def CredBundle.expired (b : CredBundle) (now : Nat) : Bool :=
  match b.expiry with
  | none => false
  | some e => decide (e ≤ now)

/-- A simple rendering of the bundle, standing for `credentials.to_json()`.
Its exact shape is irrelevant to the claims; it only has to be a string. -/
def CredBundle.toJson (b : CredBundle) : String :=
  "token=" ++ b.token ++ ";refresh_token=" ++
    (match b.refresh_token with | none => "null" | some r => r) ++
    ";expiry=" ++ (match b.expiry with | none => "null" | some e => toString e)

/-- The content of a stored credential file: either a string that
`Credentials.from_authorized_user_info(json.loads(...))` accepts, viewed
through its parse, or a string on which that parse raises. -/
inductive CredsJson where
  /-- a string whose parse succeeds, identified with its parse. -/
  | valid (b : CredBundle)
  /-- a string (corrupt JSON or ill-formed info) whose parse raises. -/
  | corrupt (raw : String)
deriving Repr, DecidableEq

/-- The raw string a `CredsJson` stands for. -/
def CredsJson.raw : CredsJson → String
  | .valid b => b.toJson
  | .corrupt r => r

/-- The credential directory: maps the file key (what the code puts before
`.json` in the path, derived from the user id) to file content. -/
abbrev CredStore := List (String × CredsJson)

namespace auth_utils

/-- `user_id.replace('/', '_').replace('\\', '_')` — the sanitization
`store_user_creds` applies before deriving the file path. -/
def sanitizeId (u : String) : String :=
  String.mk (u.data.map (fun c => if c = '/' ∨ c = '\\' then '_' else c))

/-- Look up the credential file stored under `key`. -/
def lookupFs (fs : CredStore) (key : String) : Option CredsJson :=
  match fs.find? (fun kv => kv.1 = key) with
  | none => none
  | some kv => some kv.2

/-- Remove the credential file stored under `key`. -/
def eraseFs (fs : CredStore) (key : String) : CredStore :=
  fs.filter (fun kv => ¬ kv.1 = key)

/-- `store_user_creds(user_id, creds_json)`: sanitizes the user id, then
(over)writes the file `credentials/{user_id}.json`.  The filesystem is
modelled as a total map, so the write itself cannot fail (the source
returns `False` on a write fault; no claim concerns that branch). -/
def store_user_creds (fs : CredStore) (user_id : String) (cj : CredsJson) : CredStore :=
  let uid := sanitizeId user_id
  (uid, cj) :: eraseFs fs uid

/-- `load_user_creds(user_id)`: reads `credentials/{user_id}.json` — note:
with the *unsanitized* user id — and returns the credentials JSON, or
`none` when the file is absent or anything in the `try` block raises.  If
the parsed credentials are expired and hold a refresh token, it refreshes
them (`refresh` is the provider oracle; `none` = the refresh raised),
persists the refreshed bundle via `store_user_creds` and returns its
`to_json`.  Returns the loaded value and the possibly-updated store. -/
def load_user_creds (fs : CredStore) (user_id : String) (now : Nat)
    (refresh : CredBundle → Option CredBundle) : Option CredsJson × CredStore :=
  match lookupFs fs user_id with
  | none => (none, fs)
  | some cj =>
    match cj with
    | .corrupt _ => (none, fs)
    | .valid creds =>
      if creds.expired now ∧ creds.refresh_token.isSome then
        match refresh creds with
        | none => (none, fs)
        | some creds2 =>
          (some (.valid creds2), store_user_creds fs user_id (.valid creds2))
      else (some cj, fs)

end auth_utils

/-! ## OAuth state map and the two auth endpoints (app.py) -/

/-- `oauth_states`: the process-wide dict mapping state token to user id. -/
abbrev OAuthStates := List (String × String)

namespace app

/-- Dict read: `oauth_states[state]` (as an `Option`). -/
def lookupState (states : OAuthStates) (s : String) : Option String :=
  match states.find? (fun kv => kv.1 = s) with
  | none => none
  | some kv => some kv.2

/-- Dict delete: `del oauth_states[state]`. -/
def eraseState (states : OAuthStates) (s : String) : OAuthStates :=
  states.filter (fun kv => ¬ kv.1 = s)

/-- Dict write: `oauth_states[state] = user_id` (replace-on-insert). -/
def insertState (states : OAuthStates) (s uid : String) : OAuthStates :=
  (s, uid) :: eraseState states s

/-- The JSON body of an `AuthResponse` (schemas.py). -/
inductive AuthResult where
  | success (message : String)
  | error (message : String)
deriving Repr, DecidableEq

/-- The outcome of a `GET /auth/google` request, framework layer included. -/
inductive AuthGoogleOutcome where
  /-- FastAPI rejected the request before the handler ran (missing
  required query parameter): a 422 validation response. -/
  | validationError (statusCode : Nat)
  /-- `RedirectResponse(auth_url)`. -/
  | redirect (url : String)
  /-- `AuthResponse(status="error", ...)` returned with a 200 status. -/
  | errorBody (message : String)
deriving Repr, DecidableEq

/-- The HTTP status code of a `GET /auth/google` outcome
(`RedirectResponse` defaults to 307; a body response defaults to 200). -/
def AuthGoogleOutcome.statusCode : AuthGoogleOutcome → Nat
  | .validationError s => s
  | .redirect _ => 307
  | .errorBody _ => 200

/-- `GET /auth/google` including FastAPI's parameter validation: the
handler declares `user_id: str = Query(...)`, so a request with `user_id`
absent is rejected by FastAPI's validation layer with a 422 response
before the handler body runs.  Otherwise the handler builds the OAuth flow
and authorization URL (`flowResult` is the provider-library oracle; an
exception there is caught and turned into an error body), registers
`state -> user_id` in `oauth_states`, and redirects to the URL. -/
def auth_google (states : OAuthStates) (user_id : Option String)
    (flowResult : Except PyExn (String × String)) : AuthGoogleOutcome × OAuthStates :=
  match user_id with
  | none => (.validationError 422, states)
  | some uid =>
    match flowResult with
    | .error e => (.errorBody ("Failed to initiate authentication: " ++ e.msg), states)
    | .ok (authUrl, state) => (.redirect authUrl, insertState states state uid)

/-- `str(HTTPException(400, "Invalid or expired OAuth state"))` as rendered
when the handler's own `except Exception` catches the exception it raised. -/
def invalidStateExnText : String := "400: Invalid or expired OAuth state"

/-- The response body `auth_callback` produces for a missing, unknown or
already-consumed state token. -/
def invalidStateResult : AuthResult :=
  .error ("Authentication failed: " ++ invalidStateExnText)

/-- `GET /auth/callback`.  `state` is the `state` query parameter (`none`
when absent; the code's `if not state` also rejects an empty string).
When the state is unknown the raised `HTTPException` is caught by the
handler's own `except Exception` and rendered as an error body.  When it
is known, the entry is deleted from `oauth_states` *before* the code
exchange; `exchange` is the provider oracle for
`flow.fetch_token` / `flow.credentials` (an exception there is caught and
rendered as an error body, with the state left consumed).  On success the
bundle is persisted for the bound user id.  Returns the response body, the
updated state map and the updated credential store. -/
def auth_callback (states : OAuthStates) (state : Option String)
    (exchange : Except PyExn CredBundle) (fs : CredStore) :
    AuthResult × OAuthStates × CredStore :=
  match state with
  | none => (invalidStateResult, states, fs)
  | some s =>
    if s = "" then (invalidStateResult, states, fs)
    else
      match lookupState states s with
      | none => (invalidStateResult, states, fs)
      | some user_id =>
        let states2 := eraseState states s
        match exchange with
        | .error e => (.error ("Authentication failed: " ++ e.msg), states2, fs)
        | .ok creds =>
          (.success "Successfully authenticated with Google Calendar",
           states2, auth_utils.store_user_creds fs user_id (.valid creds))

end app

/-! ## Calendar Tool Adapter (calendar_service.py) -/

/-- A calendar event dict as this repository touches it: the fields it
reads or writes (`summary`, `description`, `location`,
`start.dateTime`, `end.dateTime`); everything else passes through
opaquely and is omitted. -/
structure CalEvent where
  summary : String
  description : String
  location : String
  startDateTime : String
  endDateTime : String
deriving Repr, DecidableEq

/-- The oracle for `Credentials.from_authorized_user_info`, `build` and
the five Google Calendar API calls the adapter makes.  Each field gives
the outcome of the corresponding call as a function of its request; an
`Except.error` stands for any exception the call raises (network fault,
`HttpError`, credential-parse fault — the last two folded into
`buildResult`, which covers everything the adapter runs before the API
call proper). -/
structure CalendarApi where
  buildResult : String → Except PyExn Unit
  listResult : String → String → Except PyExn (List CalEvent)
  insertResult : CalEvent → Except PyExn CalEvent
  getResult : String → Except PyExn CalEvent
  updateResult : String → CalEvent → Except PyExn CalEvent
  deleteResult : String → Except PyExn Unit

/-- The value a calendar adapter operation returns (each operation returns
a list, an event dict, a status dict, or an `error` dict). -/
inductive CalResult where
  | events (items : List CalEvent)
  | event (e : CalEvent)
  | status (message : String)
  | error (message : String)
deriving Repr, DecidableEq

namespace calendar_service

/-- Python `try/except`: run `body`; when it raises, consult `handler` —
`some r` means an `except` clause matched and returned `r`, `none` means
no clause matched and the exception propagates. -/
def pyTry (body : Except PyExn CalResult) (handler : PyExn → Option CalResult) :
    Except PyExn CalResult :=
  match body with
  | .ok r => .ok r
  | .error e =>
    match handler e with
    | some r => .ok r
    | none => .error e

/-- The two `except` clauses every adapter operation ends with:
`except HttpError as error: return ("error": "Calendar API error: " + str(error))`
then `except Exception as e: return ("error": prefixText + str(e))`. -/
def calHandler (prefixText : String) : PyExn → Option CalResult
  | .httpError t => some (.error ("Calendar API error: " ++ t))
  | e => some (.error (prefixText ++ e.msg))

/-- `list_events(creds_json, start, end)`. -/
def list_events (creds_json start end_ : String) (api : CalendarApi) :
    Except PyExn CalResult :=
  pyTry
    (do
      api.buildResult creds_json
      let items ← api.listResult start end_
      pure (CalResult.events items))
    (calHandler "Failed to list events: ")

/-- `create_event(creds_json, title, start, end, description="", location="")`:
builds the event body and inserts it. -/
def create_event (creds_json title start end_ : String)
    (description location : String) (api : CalendarApi) : Except PyExn CalResult :=
  pyTry
    (do
      api.buildResult creds_json
      let created ← api.insertResult
        { summary := title, description := description, location := location,
          startDateTime := start, endDateTime := end_ }
      pure (CalResult.event created))
    (calHandler "Failed to create event: ")

/-- Python truthiness of an optional string argument: `if title:` is taken
only when the argument was supplied and is non-empty. -/
def truthy : Option String → Bool
  | none => false
  | some s => s != ""

/-- The field updates `update_event` applies to the fetched event, in
source order (`title`, `description`, `location`, `start`, `end`), each
guarded by Python truthiness of the argument. -/
def merge_event (event : CalEvent) (title description location start end_ : Option String) :
    CalEvent :=
  let e1 := if truthy title then { event with summary := title.getD event.summary } else event
  let e2 := if truthy description then
    { e1 with description := description.getD e1.description } else e1
  let e3 := if truthy location then { e2 with location := location.getD e2.location } else e2
  let e4 := if truthy start then { e3 with startDateTime := start.getD e3.startDateTime } else e3
  if truthy end_ then { e4 with endDateTime := end_.getD e4.endDateTime } else e4

/-- `update_event(creds_json, event_id, title=None, start=None, end=None,
description=None, location=None)`: fetches the existing event, overwrites
the supplied truthy fields, writes the merged event back. -/
def update_event (creds_json event_id : String)
    (title start end_ description location : Option String) (api : CalendarApi) :
    Except PyExn CalResult :=
  pyTry
    (do
      api.buildResult creds_json
      let event ← api.getResult event_id
      let updated ← api.updateResult event_id
        (merge_event event title description location start end_)
      pure (CalResult.event updated))
    (calHandler "Failed to update event: ")

/-- `delete_event(creds_json, event_id)`. -/
def delete_event (creds_json event_id : String) (api : CalendarApi) :
    Except PyExn CalResult :=
  pyTry
    (do
      api.buildResult creds_json
      api.deleteResult event_id
      pure (CalResult.status ("Event " ++ event_id ++ " deleted successfully")))
    (calHandler "Failed to delete event: ")

end calendar_service

/-! ## Chat orchestrator (app.py, `POST /chat`) -/

/-- The keyword arguments the model supplied for a tool call, as the dict
`json.loads(tool_call.function.arguments)` produces (argument values in
this repository's tool schemas are all strings). -/
abbrev Kwargs := List (String × String)

/-- Dict write with replace-on-insert: `d[k] = v`. -/
def dictInsert (d : Kwargs) (k v : String) : Kwargs :=
  (k, v) :: d.filter (fun kv => !(kv.1 == k))

/-- Dict read as an `Option`. -/
def getKw (d : Kwargs) (k : String) : Option String :=
  match d.find? (fun kv => kv.1 == k) with
  | none => none
  | some kv => some kv.2

deriving instance DecidableEq for Except

/-- One tool call in a completion response.  `argsJson` is the outcome of
`json.loads(tool_call.function.arguments)`: the raw argument string is
modelled through its parse (`Except.error` = the parse raises). -/
structure ToolCall where
  id : String
  name : String
  argsJson : Except PyExn Kwargs
deriving Repr, DecidableEq

/-- A completion choice message: its text content (Python `None`
possible) and its list of tool calls (`[]` models both an absent and an
empty `tool_calls` attribute, which the code treats alike). -/
structure LlmMsg where
  content : Option String
  tool_calls : List ToolCall
deriving Repr, DecidableEq

/-- One entry of the running message sequence of a chat turn. -/
inductive Msg where
  | system (content : String)
  | user (content : String)
  /-- `response_message.model_dump()` appended after a dispatch. -/
  | assistant (m : LlmMsg)
  /-- the tool-result message: `role="tool"` with the tool call id, the
  function name and `json.dumps(function_result)` as content. -/
  | tool (tool_call_id name content : String)
deriving Repr, DecidableEq

/-- `json.dumps` of an event dict, restricted to the modelled fields. -/
def CalEvent.dump (e : CalEvent) : String :=
  "summary=" ++ e.summary ++ ";description=" ++ e.description ++
    ";location=" ++ e.location ++ ";start=" ++ e.startDateTime ++
    ";end=" ++ e.endDateTime

/-- `json.dumps(function_result)`: a rendering of the adapter's return
value (its exact text is irrelevant to the claims). -/
def CalResult.dump : CalResult → String
  | .events items => "items=[" ++ String.intercalate "," (items.map CalEvent.dump) ++ "]"
  | .event e => e.dump
  | .status m => "status=success;message=" ++ m
  | .error m => "error=" ++ m

/-- The four functions of the `calendar_service` module that tool names
can resolve to. -/
inductive CalFn where
  | list_events
  | create_event
  | update_event
  | delete_event
deriving Repr, DecidableEq

/-- The Python name of each adapter function, for `TypeError` texts. -/
def CalFn.pyName : CalFn → String
  | .list_events => "list_events"
  | .create_event => "create_event"
  | .update_event => "update_event"
  | .delete_event => "delete_event"

/-- `hasattr(calendar_service, function_name)` / `getattr` restricted to
the module's four functions.  (The Python module also exposes its imports
— `json`, `logging`, `Credentials`, `build`, `HttpError`, `logger` — as
attributes; calling any of them with keyword arguments raises a
`TypeError` and lands in the same 500 path as any other dispatch-time
fault.  No claim concerns those names, so the model leaves them
unresolved.) -/
def calFn? (name : String) : Option CalFn :=
  if name = "list_events" then some .list_events
  else if name = "create_event" then some .create_event
  else if name = "update_event" then some .update_event
  else if name = "delete_event" then some .delete_event
  else none

/-- The keyword parameters each adapter function's signature accepts. -/
def CalFn.acceptedKeys : CalFn → List String
  | .list_events => ["creds_json", "start", "end"]
  | .create_event => ["creds_json", "title", "start", "end", "description", "location"]
  | .update_event =>
    ["creds_json", "event_id", "title", "start", "end", "description", "location"]
  | .delete_event => ["creds_json", "event_id"]

/-- The parameters without a default value (binding fails without them). -/
def CalFn.requiredKeys : CalFn → List String
  | .list_events => ["creds_json", "start", "end"]
  | .create_event => ["creds_json", "title", "start", "end"]
  | .update_event => ["creds_json", "event_id"]
  | .delete_event => ["creds_json", "event_id"]

/-- Keyword-argument binding for `function_to_call(**function_args)`: a
keyword the signature does not accept, or a missing required parameter,
raises `TypeError` at the call site — outside the function body and hence
outside the adapter's `try/except`. -/
def bindCall (fn : CalFn) (kwargs : Kwargs) : Except PyExn Unit :=
  match kwargs.find? (fun kv => !((fn.acceptedKeys).contains kv.1)) with
  | some kv =>
    .error (.typeError (fn.pyName ++ "() got an unexpected keyword argument " ++ kv.1))
  | none =>
    match (fn.requiredKeys).find? (fun k => !(kwargs.any (fun kv => kv.1 == k))) with
    | some k =>
      .error (.typeError (fn.pyName ++ "() missing a required argument: " ++ k))
    | none => .ok ()

/-- Run the resolved adapter function on bound keyword arguments
(defaults: `""` for `create_event`'s optional strings, `None` for
`update_event`'s optional fields). -/
def runCalFn (fn : CalFn) (kwargs : Kwargs) (api : CalendarApi) : Except PyExn CalResult :=
  let arg := fun k => (getKw kwargs k).getD ""
  match fn with
  | .list_events =>
    calendar_service.list_events (arg "creds_json") (arg "start") (arg "end") api
  | .create_event =>
    calendar_service.create_event (arg "creds_json") (arg "title") (arg "start")
      (arg "end") (arg "description") (arg "location") api
  | .update_event =>
    calendar_service.update_event (arg "creds_json") (arg "event_id")
      (getKw kwargs "title") (getKw kwargs "start") (getKw kwargs "end")
      (getKw kwargs "description") (getKw kwargs "location") api
  | .delete_event =>
    calendar_service.delete_event (arg "creds_json") (arg "event_id") api

/-- `function_to_call(**function_args)`: keyword binding, then the
function body. -/
def dispatchCalFn (fn : CalFn) (kwargs : Kwargs) (api : CalendarApi) :
    Except PyExn CalResult :=
  match bindCall fn kwargs with
  | .error e => .error e
  | .ok _ => runCalFn fn kwargs api

/-- The HTTP outcome of a `POST /chat` request. -/
inductive ChatOutcome where
  /-- 200 with `ChatResponse(reply=text)`. -/
  | reply (text : String)
  /-- `HTTPException(422, detail)` from the `except ValidationError` arm. -/
  | http422 (detail : String)
  /-- `HTTPException(500, detail)` from the `except Exception` arm. -/
  | http500 (detail : String)
deriving Repr, DecidableEq

/-- Building `ChatResponse(reply=content)`: with `content = None`,
pydantic raises a `ValidationError`, which the handler's
`except ValidationError` turns into a 422 (detail text abbreviated). -/
def mkReply : Option String → ChatOutcome
  | some t => .reply t
  | none => .http422 "Validation error: reply must be a string"

def systemBase : String := "You are a helpful VR assistant."

def systemAuthed : String :=
  systemBase ++ " You can access the user\x27s Google Calendar."

def systemUnauthed : String :=
  systemBase ++ " The user has not connected their Google Calendar yet."

/-- The fixed reply of the unauthenticated tool-call branch (the two
adjacent Python string literals concatenated). -/
def authPromptText : String :=
  "To perform calendar operations, you need to connect your Google Calendar first. " ++
    "Please authenticate to enable this feature."

/-- The fixed reply for a tool name that does not resolve. -/
def unknownFnText : String :=
  "I\x27m sorry, but I encountered an error trying to execute that operation."

/-- The external world of one chat turn: the completion service (a
function of the message sequence and of whether tools were attached), the
calendar API, the clock, and the token-refresh oracle. -/
structure ChatEnv where
  llm : List Msg → Bool → LlmMsg
  api : CalendarApi
  now : Nat
  refresh : CredBundle → Option CredBundle

/-- `POST /chat`.  Returns the HTTP outcome, the list of adapter
dispatches that ran (function and bound keyword dict — empty whenever no
calendar operation was invoked), and the credential store after the
request (`load_user_creds` may refresh-and-store). -/
def chat_endpoint (fs : CredStore) (env : ChatEnv) (user_id message : String) :
    ChatOutcome × List (CalFn × Kwargs) × CredStore :=
  let loaded := auth_utils.load_user_creds fs user_id env.now env.refresh
  let creds_json := loaded.1
  let fs1 := loaded.2
  let system_content := if creds_json.isSome then systemAuthed else systemUnauthed
  let messages : List Msg := [.system system_content, .user message]
  let response_message := env.llm messages creds_json.isSome
  match response_message.tool_calls with
  | [] => (mkReply response_message.content, [], fs1)
  | tool_call :: _ =>
    match creds_json with
    | none => (.reply authPromptText, [], fs1)
    | some cj =>
      match tool_call.argsJson with
      | .error e => (.http500 ("An error occurred: " ++ e.msg), [], fs1)
      | .ok args =>
        let function_args := dictInsert args "creds_json" cj.raw
        match calFn? tool_call.name with
        | none => (.reply unknownFnText, [], fs1)
        | some fn =>
          match dispatchCalFn fn function_args env.api with
          | .error e => (.http500 ("An error occurred: " ++ e.msg), [], fs1)
          | .ok function_result =>
            let messages2 := messages ++
              [.assistant response_message,
               .tool tool_call.id tool_call.name function_result.dump]
            let second := env.llm messages2 false
            (mkReply second.content, [(fn, function_args)], fs1)

/-! ## Concrete fixtures used by witnesses and counterexamples -/

/-- A calendar API oracle on which every call succeeds. -/
def okApi : CalendarApi where
  buildResult := fun _ => .ok ()
  listResult := fun _ _ => .ok []
  insertResult := fun e => .ok e
  getResult := fun _ =>
    .ok { summary := "Standup", description := "daily", location := "room 1",
          startDateTime := "2024-01-02T09:00:00Z", endDateTime := "2024-01-02T09:15:00Z" }
  updateResult := fun _ e => .ok e
  deleteResult := fun _ => .ok ()

/-- A completion oracle that always asks for a `list_events` tool call on
the first (tools-attached) call and answers plain text otherwise. -/
def toolCallingLlm : List Msg → Bool → LlmMsg := fun _ _ =>
  { content := some "checking",
    tool_calls := [{ id := "call1", name := "list_events",
                     argsJson := .ok [("start", "2024-01-01T00:00:00Z"),
                                      ("end", "2024-01-02T00:00:00Z")] }] }

/-- A chat environment whose completion service always emits a tool call. -/
def toolEnv : ChatEnv where
  llm := toolCallingLlm
  api := okApi
  now := 0
  refresh := fun _ => none

/-! ## Claims -/

/-- When `load_user_creds` yields no credentials for the requesting user,
the chat handler dispatches nothing, and a tool-calling first completion
is answered with the fixed authentication prompt. -/
theorem chat_endpoint_absent_creds (fs : CredStore) (env : ChatEnv)
    (uid msg : String)
    (h : (auth_utils.load_user_creds fs uid env.now env.refresh).1 = none) :
    (chat_endpoint fs env uid msg).2.1 = [] ∧
    ((env.llm [.system systemUnauthed, .user msg] false).tool_calls ≠ [] →
      (chat_endpoint fs env uid msg).1 = ChatOutcome.reply authPromptText) := by
  unfold chat_endpoint
  rcases hE : auth_utils.load_user_creds fs uid env.now env.refresh with ⟨c, fs1⟩
  rw [hE] at h
  simp only at h
  subst h
  simp only [Option.isSome_none, Bool.false_eq_true, if_false]
  rcases htc : (env.llm [.system systemUnauthed, .user msg] false).tool_calls with _ | ⟨tc, rest⟩
  · simp [htc]
  · simp [htc]

/-- C1: for every chat request whose user has no stored credential bundle
(load returns absent), the `/chat` handler never invokes any calendar
adapter operation — the dispatch trace is empty — even when the first
completion's response contains a tool call, and in that tool-call case
the reply returned is the fixed authentication-prompt text. -/
theorem C1_unauthenticated_never_dispatches (fs : CredStore) (env : ChatEnv)
    (uid msg : String)
    (h : (auth_utils.load_user_creds fs uid env.now env.refresh).1 = none) :
    (chat_endpoint fs env uid msg).2.1 = [] ∧
    ((env.llm [.system systemUnauthed, .user msg] false).tool_calls ≠ [] →
      (chat_endpoint fs env uid msg).1 = ChatOutcome.reply authPromptText) :=
  chat_endpoint_absent_creds fs env uid msg h

/-- Witness for C1 at a concrete input: the empty credential store, an
environment whose first completion emits a `list_events` tool call. -/
theorem C1_witness :
    ((auth_utils.load_user_creds [] "alice" toolEnv.now toolEnv.refresh).1 = none) ∧
    ((chat_endpoint [] toolEnv "alice" "list my events").2.1 = [] ∧
    ((toolEnv.llm [.system systemUnauthed, .user "list my events"] false).tool_calls ≠ [] →
      (chat_endpoint [] toolEnv "alice" "list my events").1 =
        ChatOutcome.reply authPromptText)) :=
  ⟨by decide, C1_unauthenticated_never_dispatches [] toolEnv "alice" "list my events"
    (by decide)⟩

/-- Deleting a state token from the pending map leaves no binding for it. -/
theorem lookupState_eraseState (states : OAuthStates) (s : String) :
    app.lookupState (app.eraseState states s) s = none := by
  unfold app.lookupState app.eraseState
  have h : List.find? (fun kv : String × String => kv.1 = s)
      (List.filter (fun kv : String × String => ¬ kv.1 = s) states) = none := by
    rw [List.find?_eq_none]
    intro kv hkv
    have hp := List.of_mem_filter hkv
    simp only [decide_not, Bool.not_eq_eq_eq_not, Bool.not_true,
      decide_eq_false_iff_not] at hp
    simpa using hp
  rw [h]

/-- C2: a pending state token is accepted by the callback handler at most
once.  When a callback presents a pending token `s` (non-empty, as every
provider-issued token is): (a) whatever the code-exchange outcome, the
handler's resulting pending map is exactly the old map with `s` deleted —
it removes the entry before any further processing and registers nothing;
(b) the deleted map holds no binding for `s`; (c) any later callback
presenting `s` gets the invalid-state response and changes nothing; and
(d) a callback presenting a token with no pending binding (never
registered, or already consumed) gets the invalid-state response and
changes nothing. -/
theorem C2_state_token_single_use (states : OAuthStates) (s uid : String)
    (ex : Except PyExn CredBundle) (fs : CredStore)
    (hs : app.lookupState states s = some uid) (hne : s ≠ "") :
    (app.auth_callback states (some s) ex fs).2.1 = app.eraseState states s ∧
    app.lookupState (app.eraseState states s) s = none ∧
    (∀ (ex2 : Except PyExn CredBundle) (fs2 : CredStore),
      app.auth_callback (app.eraseState states s) (some s) ex2 fs2 =
        (app.invalidStateResult, app.eraseState states s, fs2)) ∧
    (∀ (states0 : OAuthStates) (s0 : String) (ex0 : Except PyExn CredBundle)
        (fs0 : CredStore), app.lookupState states0 s0 = none →
      app.auth_callback states0 (some s0) ex0 fs0 =
        (app.invalidStateResult, states0, fs0)) := by
  refine ⟨?_, lookupState_eraseState states s, ?_, ?_⟩
  · simp only [app.auth_callback, if_neg hne, hs]
    cases ex <;> rfl
  · intro ex2 fs2
    simp only [app.auth_callback, if_neg hne, lookupState_eraseState states s]
  · intro states0 s0 ex0 fs0 h0
    by_cases h00 : s0 = ""
    · simp only [app.auth_callback, if_pos h00]
    · simp only [app.auth_callback, if_neg h00, h0]

/-- Witness for C2 at a concrete input: the map holding one pending token. -/
theorem C2_witness :
    (app.lookupState [("st1", "alice")] "st1" = some "alice" ∧ "st1" ≠ "") ∧
    ((app.auth_callback [("st1", "alice")] (some "st1")
        (Except.ok { token := "tok", refresh_token := none, expiry := none }) []).2.1 =
      app.eraseState [("st1", "alice")] "st1" ∧
    app.lookupState (app.eraseState [("st1", "alice")] "st1") "st1" = none ∧
    (∀ (ex2 : Except PyExn CredBundle) (fs2 : CredStore),
      app.auth_callback (app.eraseState [("st1", "alice")] "st1") (some "st1") ex2 fs2 =
        (app.invalidStateResult, app.eraseState [("st1", "alice")] "st1", fs2)) ∧
    (∀ (states0 : OAuthStates) (s0 : String) (ex0 : Except PyExn CredBundle)
        (fs0 : CredStore), app.lookupState states0 s0 = none →
      app.auth_callback states0 (some s0) ex0 fs0 =
        (app.invalidStateResult, states0, fs0))) :=
  ⟨⟨by decide, by decide⟩,
    C2_state_token_single_use [("st1", "alice")] "st1" "alice"
      (Except.ok { token := "tok", refresh_token := none, expiry := none }) []
      (by decide) (by decide)⟩

/-- Reading right after writing the same user's file finds the written
content, provided sanitization does not divert the file key. -/
theorem lookupFs_store_user_creds (fs : CredStore) (u : String) (cj : CredsJson)
    (hu : auth_utils.sanitizeId u = u) :
    auth_utils.lookupFs (auth_utils.store_user_creds fs u cj) u = some cj := by
  unfold auth_utils.lookupFs auth_utils.store_user_creds
  rw [hu]
  simp [List.find?]

/-- C3 counterexample: the claim quantifies over *every* user identifier,
but `store_user_creds` sanitizes the id (`"a/b"` is stored under the file
key `"a_b"`) while `load_user_creds` reads the unsanitized path, so for
`U = "a/b"` the round trip returns `none` instead of the stored bundle. -/
theorem C3_counterexample :
    (auth_utils.load_user_creds
        (auth_utils.store_user_creds [] "a/b"
          (.valid { token := "tok", refresh_token := none, expiry := none }))
        "a/b" 0 (fun _ => none)).1 = none ∧
    (auth_utils.load_user_creds
        (auth_utils.store_user_creds [] "a/b"
          (.valid { token := "tok", refresh_token := none, expiry := none }))
        "a/b" 0 (fun _ => none)).1 ≠
      some (.valid { token := "tok", refresh_token := none, expiry := none }) := by
  constructor
  · decide
  · decide

/-- C3 (amended): for every user identifier U that sanitization leaves
unchanged (no `/` or `\` characters) and every bundle B, `store(U, B)`
followed by `load(U)` returns B and leaves the store as written — except
when B is expired at load time and holds a refresh token, in which case
`load` returns the refreshed bundle (whose expiry, when both are
recorded, is strictly later), persists it, and a second `load` returns
that same refreshed bundle with no further store change. -/
theorem C3_store_load_roundtrip (fs : CredStore) (u : String) (b : CredBundle)
    (now : Nat) (refresh : CredBundle → Option CredBundle)
    (hu : auth_utils.sanitizeId u = u) :
    (¬ (b.expired now = true ∧ b.refresh_token.isSome = true) →
      auth_utils.load_user_creds (auth_utils.store_user_creds fs u (.valid b)) u now refresh =
        (some (.valid b), auth_utils.store_user_creds fs u (.valid b))) ∧
    (∀ b2 : CredBundle, b.expired now = true → b.refresh_token.isSome = true →
      refresh b = some b2 → b2.expired now = false →
      (auth_utils.load_user_creds (auth_utils.store_user_creds fs u (.valid b)) u now refresh =
        (some (.valid b2),
         auth_utils.store_user_creds (auth_utils.store_user_creds fs u (.valid b)) u
           (.valid b2)) ∧
      auth_utils.load_user_creds
          (auth_utils.store_user_creds (auth_utils.store_user_creds fs u (.valid b)) u
            (.valid b2)) u now refresh =
        (some (.valid b2),
         auth_utils.store_user_creds (auth_utils.store_user_creds fs u (.valid b)) u
           (.valid b2)) ∧
      (∀ e e2 : Nat, b.expiry = some e → b2.expiry = some e2 → e < e2))) := by
  constructor
  · intro hnot
    unfold auth_utils.load_user_creds
    rw [lookupFs_store_user_creds fs u (.valid b) hu]
    simp only [if_neg hnot]
  · intro b2 hexp href hrefresh hfresh
    refine ⟨?_, ?_, ?_⟩
    · unfold auth_utils.load_user_creds
      rw [lookupFs_store_user_creds fs u (.valid b) hu]
      simp only [if_pos (And.intro hexp href), hrefresh]
    · unfold auth_utils.load_user_creds
      rw [lookupFs_store_user_creds _ u (.valid b2) hu]
      have hnot2 : ¬ (b2.expired now = true ∧ b2.refresh_token.isSome = true) := by
        intro hc
        rw [hfresh] at hc
        exact absurd hc.1 (by simp)
      simp only [if_neg hnot2]
    · intro e e2 he he2
      unfold CredBundle.expired at hexp hfresh
      rw [he] at hexp
      rw [he2] at hfresh
      simp only [decide_eq_true_eq] at hexp
      simp only [decide_eq_false_iff_not, Nat.not_le] at hfresh
      exact lt_of_le_of_lt hexp hfresh

/-- Witness for C3 (amended) at a concrete input: a bundle expired at
`now = 100` with a refresh token, whose refresh yields a bundle expiring
at 200; and, through the first branch, a non-expired bundle. -/
theorem C3_witness :
    (auth_utils.sanitizeId "bob" = "bob" ∧
      ("2024creds" : String) ≠ "" ∧
      CredBundle.expired { token := "old", refresh_token := some "r", expiry := some 50 } 100 =
        true) ∧
    (auth_utils.load_user_creds
        (auth_utils.store_user_creds [] "bob"
          (.valid { token := "old", refresh_token := some "r", expiry := some 50 }))
        "bob" 100
        (fun _ => some { token := "new", refresh_token := some "r", expiry := some 200 }) =
      (some (.valid { token := "new", refresh_token := some "r", expiry := some 200 }),
       auth_utils.store_user_creds
         (auth_utils.store_user_creds [] "bob"
           (.valid { token := "old", refresh_token := some "r", expiry := some 50 }))
         "bob" (.valid { token := "new", refresh_token := some "r", expiry := some 200 }))) :=
  ⟨⟨by decide, by decide, by decide⟩,
    ((C3_store_load_roundtrip [] "bob"
        { token := "old", refresh_token := some "r", expiry := some 50 } 100
        (fun _ => some { token := "new", refresh_token := some "r", expiry := some 200 })
        (by decide)).2
      { token := "new", refresh_token := some "r", expiry := some 200 }
      (by decide) (by decide) (by decide) (by decide)).1⟩

/-- C4: `update_event` is a merge-patch.  General clause: each of the
five updatable fields of the merged event equals the supplied argument
when that argument is supplied and non-empty (Python truthiness) and the
fetched event's value otherwise.  Particular clause: when the existing
event is fetched successfully and only `event_id` and `title` are
supplied, the event written back (observed through an echoing update
oracle) keeps the fetched start, end, description, and location. -/
theorem C4_update_event_merge_patch (creds eid t : String) (api : CalendarApi)
    (e : CalEvent)
    (hbuild : api.buildResult creds = .ok ())
    (hget : api.getResult eid = .ok e)
    (hupd : ∀ (id : String) (ev : CalEvent), api.updateResult id ev = .ok ev) :
    (∀ (ev : CalEvent) (title description location start end_ : Option String),
      (calendar_service.merge_event ev title description location start end_).summary =
        (if calendar_service.truthy title then title.getD ev.summary else ev.summary) ∧
      (calendar_service.merge_event ev title description location start end_).description =
        (if calendar_service.truthy description then description.getD ev.description
         else ev.description) ∧
      (calendar_service.merge_event ev title description location start end_).location =
        (if calendar_service.truthy location then location.getD ev.location
         else ev.location) ∧
      (calendar_service.merge_event ev title description location start end_).startDateTime =
        (if calendar_service.truthy start then start.getD ev.startDateTime
         else ev.startDateTime) ∧
      (calendar_service.merge_event ev title description location start end_).endDateTime =
        (if calendar_service.truthy end_ then end_.getD ev.endDateTime
         else ev.endDateTime)) ∧
    (calendar_service.update_event creds eid (some t) none none none none api =
      .ok (.event (calendar_service.merge_event e (some t) none none none none)) ∧
    (calendar_service.merge_event e (some t) none none none none).startDateTime =
      e.startDateTime ∧
    (calendar_service.merge_event e (some t) none none none none).endDateTime =
      e.endDateTime ∧
    (calendar_service.merge_event e (some t) none none none none).description =
      e.description ∧
    (calendar_service.merge_event e (some t) none none none none).location =
      e.location) := by
  constructor
  · intro ev title description location start end_
    unfold calendar_service.merge_event
    by_cases h1 : calendar_service.truthy title <;>
      by_cases h2 : calendar_service.truthy description <;>
        by_cases h3 : calendar_service.truthy location <;>
          by_cases h4 : calendar_service.truthy start <;>
            by_cases h5 : calendar_service.truthy end_ <;>
              simp [h1, h2, h3, h4, h5]
  · refine ⟨?_, ?_⟩
    · unfold calendar_service.update_event calendar_service.pyTry
      simp only [bind, Except.bind, hbuild, hget, hupd, pure, Except.pure]
    · unfold calendar_service.merge_event
      by_cases h0 : t = "" <;>
        simp [calendar_service.truthy, h0]

/-- Witness for C4 at a concrete input: the echoing `okApi` oracle, whose
`getResult` returns a fixed existing event, with only a new title
supplied. -/
theorem C4_witness :
    (okApi.buildResult "cj" = .ok () ∧
      okApi.getResult "ev1" =
        .ok { summary := "Standup", description := "daily", location := "room 1",
              startDateTime := "2024-01-02T09:00:00Z",
              endDateTime := "2024-01-02T09:15:00Z" }) ∧
    (calendar_service.update_event "cj" "ev1" (some "Sync") none none none none okApi =
      .ok (.event (calendar_service.merge_event
        { summary := "Standup", description := "daily", location := "room 1",
          startDateTime := "2024-01-02T09:00:00Z", endDateTime := "2024-01-02T09:15:00Z" }
        (some "Sync") none none none none)) ∧
    (calendar_service.merge_event
        { summary := "Standup", description := "daily", location := "room 1",
          startDateTime := "2024-01-02T09:00:00Z", endDateTime := "2024-01-02T09:15:00Z" }
        (some "Sync") none none none none).startDateTime = "2024-01-02T09:00:00Z" ∧
    (calendar_service.merge_event
        { summary := "Standup", description := "daily", location := "room 1",
          startDateTime := "2024-01-02T09:00:00Z", endDateTime := "2024-01-02T09:15:00Z" }
        (some "Sync") none none none none).endDateTime = "2024-01-02T09:15:00Z" ∧
    (calendar_service.merge_event
        { summary := "Standup", description := "daily", location := "room 1",
          startDateTime := "2024-01-02T09:00:00Z", endDateTime := "2024-01-02T09:15:00Z" }
        (some "Sync") none none none none).description = "daily" ∧
    (calendar_service.merge_event
        { summary := "Standup", description := "daily", location := "room 1",
          startDateTime := "2024-01-02T09:00:00Z", endDateTime := "2024-01-02T09:15:00Z" }
        (some "Sync") none none none none).location = "room 1") :=
  ⟨⟨rfl, rfl⟩,
    (C4_update_event_merge_patch "cj" "ev1" "Sync" okApi
      { summary := "Standup", description := "daily", location := "room 1",
        startDateTime := "2024-01-02T09:00:00Z", endDateTime := "2024-01-02T09:15:00Z" }
      rfl rfl (fun _ _ => rfl)).2⟩

/-- A calendar API oracle on which every call raises a generic (network)
fault carrying message `m`. -/
def failApi (m : String) : CalendarApi where
  buildResult := fun _ => .error (.other m)
  listResult := fun _ _ => .error (.other m)
  insertResult := fun _ => .error (.other m)
  getResult := fun _ => .error (.other m)
  updateResult := fun _ _ => .error (.other m)
  deleteResult := fun _ => .error (.other m)

/-- A calendar API oracle on which every call raises an `HttpError`
carrying message `m`. -/
def httpFailApi (m : String) : CalendarApi where
  buildResult := fun _ => .error (.httpError m)
  listResult := fun _ _ => .error (.httpError m)
  insertResult := fun _ => .error (.httpError m)
  getResult := fun _ => .error (.httpError m)
  updateResult := fun _ _ => .error (.httpError m)
  deleteResult := fun _ => .error (.httpError m)

/-- The `except HttpError` / `except Exception` pair at the end of every
adapter operation handles every exception, so a `pyTry` around any body
with that handler never propagates a fault. -/
theorem pyTry_calHandler_isOk (body : Except PyExn CalResult) (p : String) :
    (calendar_service.pyTry body (calendar_service.calHandler p)).isOk = true := by
  unfold calendar_service.pyTry calendar_service.calHandler
  cases body with
  | ok r => rfl
  | error e => cases e <;> rfl

/-- C5: every calendar adapter operation is total with respect to
provider and network faults.  For every oracle and every argument, each
of the four operations returns a value (`isOk`), never a propagated
exception; and on an oracle whose calls raise — a generic fault or an
`HttpError` alike — the returned value is the structured error dict
whose message wraps the fault's text. -/
theorem C5_adapter_operations_total (api : CalendarApi)
    (c s e ti d l id m : String) (ot os oe od ol : Option String) :
    (calendar_service.list_events c s e api).isOk = true ∧
    (calendar_service.create_event c ti s e d l api).isOk = true ∧
    (calendar_service.update_event c id ot os oe od ol api).isOk = true ∧
    (calendar_service.delete_event c id api).isOk = true ∧
    calendar_service.list_events c s e (failApi m) =
      .ok (.error ("Failed to list events: " ++ m)) ∧
    calendar_service.create_event c ti s e d l (failApi m) =
      .ok (.error ("Failed to create event: " ++ m)) ∧
    calendar_service.update_event c id ot os oe od ol (failApi m) =
      .ok (.error ("Failed to update event: " ++ m)) ∧
    calendar_service.delete_event c id (failApi m) =
      .ok (.error ("Failed to delete event: " ++ m)) ∧
    calendar_service.list_events c s e (httpFailApi m) =
      .ok (.error ("Calendar API error: " ++ m)) ∧
    calendar_service.create_event c ti s e d l (httpFailApi m) =
      .ok (.error ("Calendar API error: " ++ m)) ∧
    calendar_service.update_event c id ot os oe od ol (httpFailApi m) =
      .ok (.error ("Calendar API error: " ++ m)) ∧
    calendar_service.delete_event c id (httpFailApi m) =
      .ok (.error ("Calendar API error: " ++ m)) :=
  ⟨pyTry_calHandler_isOk _ _, pyTry_calHandler_isOk _ _,
   pyTry_calHandler_isOk _ _, pyTry_calHandler_isOk _ _,
   rfl, rfl, rfl, rfl, rfl, rfl, rfl, rfl⟩

/-- C6: on the dispatched path — credentials present, the first
completion (issued with tools attached) contains a tool call, its
arguments parse, the tool name resolves, and the keyword-bound call
returns result `r` — the handler appends the model's tool-invocation
message and a tool-result message carrying the serialized result, issues
a second completion over that extended sequence with tools *not*
attached, and returns that second completion's text as the final reply;
the dispatch trace records exactly that one call. -/
theorem C6_dispatched_path_second_completion (fs : CredStore) (env : ChatEnv)
    (uid msg : String) (cj : CredsJson) (tc : ToolCall) (rest : List ToolCall)
    (args : Kwargs) (fn : CalFn) (r : CalResult) (t : String)
    (hload : (auth_utils.load_user_creds fs uid env.now env.refresh).1 = some cj)
    (hfirst : (env.llm [.system systemAuthed, .user msg] true).tool_calls = tc :: rest)
    (hargs : tc.argsJson = .ok args)
    (hfn : calFn? tc.name = some fn)
    (hdispatch : dispatchCalFn fn (dictInsert args "creds_json" cj.raw) env.api = .ok r)
    (hsecond : (env.llm ([.system systemAuthed, .user msg] ++
        [.assistant (env.llm [.system systemAuthed, .user msg] true),
         .tool tc.id tc.name r.dump]) false).content = some t) :
    chat_endpoint fs env uid msg =
      (ChatOutcome.reply t, [(fn, dictInsert args "creds_json" cj.raw)],
       (auth_utils.load_user_creds fs uid env.now env.refresh).2) := by
  unfold chat_endpoint
  rcases hE : auth_utils.load_user_creds fs uid env.now env.refresh with ⟨c, fs1⟩
  rw [hE] at hload
  simp only at hload
  subst hload
  simp only [List.cons_append, List.nil_append] at hsecond
  simp [hfirst, hargs, hfn, hdispatch, hsecond, mkReply]

/-- A credential store holding one valid, non-expired bundle for `bob`. -/
def bobStore : CredStore :=
  [("bob", .valid { token := "tok", refresh_token := some "r", expiry := none })]

/-- Witness for C6 at a concrete input: `bob` with valid credentials, the
tool-calling completion oracle, the all-succeeding calendar oracle. -/
theorem C6_witness :
    ((auth_utils.load_user_creds bobStore "bob" toolEnv.now toolEnv.refresh).1 =
        some (.valid { token := "tok", refresh_token := some "r", expiry := none }) ∧
      (toolEnv.llm [.system systemAuthed, .user "whats on"] true).tool_calls =
        [{ id := "call1", name := "list_events",
           argsJson := .ok [("start", "2024-01-01T00:00:00Z"),
                            ("end", "2024-01-02T00:00:00Z")] }]) ∧
    chat_endpoint bobStore toolEnv "bob" "whats on" =
      (ChatOutcome.reply "checking",
       [(CalFn.list_events,
         dictInsert [("start", "2024-01-01T00:00:00Z"), ("end", "2024-01-02T00:00:00Z")]
           "creds_json"
           (CredsJson.valid { token := "tok", refresh_token := some "r", expiry := none }).raw)],
       (auth_utils.load_user_creds bobStore "bob" toolEnv.now toolEnv.refresh).2) :=
  ⟨⟨by decide, by decide⟩,
    C6_dispatched_path_second_completion bobStore toolEnv "bob" "whats on"
      (.valid { token := "tok", refresh_token := some "r", expiry := none })
      { id := "call1", name := "list_events",
        argsJson := .ok [("start", "2024-01-01T00:00:00Z"), ("end", "2024-01-02T00:00:00Z")] }
      [] [("start", "2024-01-01T00:00:00Z"), ("end", "2024-01-02T00:00:00Z")]
      CalFn.list_events (CalResult.events []) "checking"
      (by decide) (by decide) (by decide) (by decide) (by decide) (by decide)⟩

/-- Registering a state binds it to the user id. -/
theorem lookupState_insertState (states : OAuthStates) (s uid : String) :
    app.lookupState (app.insertState states s uid) s = some uid := by
  unfold app.lookupState app.insertState
  simp [List.find?]

/-- C7 counterexample: a `GET /auth/google` request with `user_id` absent
is rejected by FastAPI's required-parameter validation with a 422
response, not the 400 the claim states. -/
theorem C7_counterexample :
    (app.auth_google [] none
        (.ok ("https://accounts.google.com/o/oauth2/auth", "st1"))).1.statusCode = 422 ∧
    (app.auth_google [] none
        (.ok ("https://accounts.google.com/o/oauth2/auth", "st1"))).1.statusCode ≠ 400 := by
  constructor
  · rfl
  · decide

/-- C7 (amended): a `GET /auth/google` request with the `user_id` query
parameter absent fails with a 422 validation response (FastAPI's status
for a missing required parameter) and registers nothing; when `user_id`
is present and the provider flow yields `(url, state)`, the handler
registers that state for the user — afterwards the pending map binds it
to `user_id` — and responds with a redirect to the provider's
authorization URL. -/
theorem C7_auth_google_requires_user_id (states : OAuthStates)
    (fr : Except PyExn (String × String)) (url s uid : String) :
    (app.auth_google states none fr).1 = .validationError 422 ∧
    (app.auth_google states none fr).1.statusCode = 422 ∧
    (app.auth_google states none fr).2 = states ∧
    app.auth_google states (some uid) (.ok (url, s)) =
      (.redirect url, app.insertState states s uid) ∧
    app.lookupState (app.insertState states s uid) s = some uid :=
  ⟨rfl, rfl, rfl, rfl, lookupState_insertState states s uid⟩

/-- A completion oracle emitting a `list_events` tool call whose
arguments hold a keyword (`bogus`) that no adapter signature accepts. -/
def badArgsLlm : List Msg → Bool → LlmMsg := fun _ _ =>
  { content := some "checking",
    tool_calls := [{ id := "call1", name := "list_events",
                     argsJson := .ok [("start", "a"), ("end", "b"), ("bogus", "x")] }] }

/-- A chat environment built on `badArgsLlm`. -/
def badArgsEnv : ChatEnv where
  llm := badArgsLlm
  api := okApi
  now := 0
  refresh := fun _ => none

/-- C8 counterexample: on a concrete request whose dispatch raises a
`TypeError`, the handler's 500 response detail is the string
`"An error occurred: "` followed by the exception text — which names the
tool function — so the body does leak internal detail, contrary to the
claim. -/
theorem C8_counterexample :
    (chat_endpoint bobStore badArgsEnv "bob" "hi").1 =
      ChatOutcome.http500 ("An error occurred: " ++
        "list_events() got an unexpected keyword argument bogus") ∧
    ("An error occurred: " ++ "list_events() got an unexpected keyword argument bogus" ≠
      "An error occurred: ") := by
  constructor
  · decide
  · decide

/-- C8 (amended): any fault in the `/chat` handler not classified as a
validation error is caught at the request boundary and surfaced as a 500
response — never a propagated exception — but its detail string is
`"An error occurred: "` followed by `str(e)`, so the exception text (and
with it e.g. the tool name inside a `TypeError` message) appears in the
body sent to the caller.  Shown on both unhandled-fault paths of the
model: tool-argument JSON parsing and keyword binding at dispatch. -/
theorem C8_unhandled_fault_500_leaks_detail (fs : CredStore) (env : ChatEnv)
    (uid msg : String) (cj : CredsJson) (tc : ToolCall) (rest : List ToolCall)
    (hload : (auth_utils.load_user_creds fs uid env.now env.refresh).1 = some cj)
    (hfirst : (env.llm [.system systemAuthed, .user msg] true).tool_calls = tc :: rest) :
    (∀ e : PyExn, tc.argsJson = .error e →
      (chat_endpoint fs env uid msg).1 =
        ChatOutcome.http500 ("An error occurred: " ++ e.msg)) ∧
    (∀ (args : Kwargs) (fn : CalFn) (e : PyExn), tc.argsJson = .ok args →
      calFn? tc.name = some fn →
      dispatchCalFn fn (dictInsert args "creds_json" cj.raw) env.api = .error e →
      (chat_endpoint fs env uid msg).1 =
        ChatOutcome.http500 ("An error occurred: " ++ e.msg)) := by
  constructor
  · intro e he
    unfold chat_endpoint
    rcases hE : auth_utils.load_user_creds fs uid env.now env.refresh with ⟨c, fs1⟩
    rw [hE] at hload
    simp only at hload
    subst hload
    simp [hfirst, he]
  · intro args fn e hargs hfn hdispatch
    unfold chat_endpoint
    rcases hE : auth_utils.load_user_creds fs uid env.now env.refresh with ⟨c, fs1⟩
    rw [hE] at hload
    simp only at hload
    subst hload
    simp [hfirst, hargs, hfn, hdispatch]

/-- Witness for C8 at a concrete input: `bob`, authenticated, with a tool
call carrying the unexpected keyword `bogus`. -/
theorem C8_witness :
    ((auth_utils.load_user_creds bobStore "bob" badArgsEnv.now badArgsEnv.refresh).1 =
        some (.valid { token := "tok", refresh_token := some "r", expiry := none }) ∧
      (badArgsEnv.llm [.system systemAuthed, .user "hi"] true).tool_calls =
        [{ id := "call1", name := "list_events",
           argsJson := .ok [("start", "a"), ("end", "b"), ("bogus", "x")] }]) ∧
    (chat_endpoint bobStore badArgsEnv "bob" "hi").1 =
      ChatOutcome.http500 ("An error occurred: " ++
        PyExn.msg (.typeError "list_events() got an unexpected keyword argument bogus")) :=
  ⟨⟨by decide, by decide⟩,
    (C8_unhandled_fault_500_leaks_detail bobStore badArgsEnv "bob" "hi"
      (.valid { token := "tok", refresh_token := some "r", expiry := none })
      { id := "call1", name := "list_events",
        argsJson := .ok [("start", "a"), ("end", "b"), ("bogus", "x")] }
      [] (by decide) (by decide)).2
      [("start", "a"), ("end", "b"), ("bogus", "x")] CalFn.list_events
      (.typeError "list_events() got an unexpected keyword argument bogus")
      (by decide) (by decide) (by decide)⟩

/-- C9: every failure while reading, parsing, or refreshing a stored
bundle makes `load_user_creds` return `none` with the store untouched —
the same value an absent bundle yields — and a chat request for a user
whose load comes back `none` takes the unauthenticated path: no dispatch,
and a tool-calling first completion is answered with the fixed
authentication prompt. -/
theorem C9_unusable_bundle_treated_as_absent (fs : CredStore) (env : ChatEnv)
    (uid msg : String) :
    (∀ raw : String, auth_utils.lookupFs fs uid = some (.corrupt raw) →
      auth_utils.load_user_creds fs uid env.now env.refresh = (none, fs)) ∧
    (∀ b : CredBundle, auth_utils.lookupFs fs uid = some (.valid b) →
      b.expired env.now = true → b.refresh_token.isSome = true → env.refresh b = none →
      auth_utils.load_user_creds fs uid env.now env.refresh = (none, fs)) ∧
    (auth_utils.lookupFs fs uid = none →
      auth_utils.load_user_creds fs uid env.now env.refresh = (none, fs)) ∧
    ((auth_utils.load_user_creds fs uid env.now env.refresh).1 = none →
      (chat_endpoint fs env uid msg).2.1 = [] ∧
      ((env.llm [.system systemUnauthed, .user msg] false).tool_calls ≠ [] →
        (chat_endpoint fs env uid msg).1 = ChatOutcome.reply authPromptText)) := by
  refine ⟨?_, ?_, ?_, chat_endpoint_absent_creds fs env uid msg⟩
  · intro raw h
    unfold auth_utils.load_user_creds
    rw [h]
  · intro b h hexp href hrf
    unfold auth_utils.load_user_creds
    rw [h]
    simp only [if_pos (And.intro hexp href), hrf]
  · intro h
    unfold auth_utils.load_user_creds
    rw [h]

/-- Witness for C9 at a concrete input: a store whose only entry for
`carol` is a corrupt credential file, with a tool-calling completion. -/
theorem C9_witness :
    (auth_utils.lookupFs [("carol", CredsJson.corrupt "notjson")] "carol" =
        some (.corrupt "notjson") ∧
      (auth_utils.load_user_creds [("carol", CredsJson.corrupt "notjson")] "carol"
          toolEnv.now toolEnv.refresh).1 = none) ∧
    (auth_utils.load_user_creds [("carol", CredsJson.corrupt "notjson")] "carol"
        toolEnv.now toolEnv.refresh =
      (none, [("carol", CredsJson.corrupt "notjson")]) ∧
    ((chat_endpoint [("carol", CredsJson.corrupt "notjson")] toolEnv "carol" "hello").2.1 = [] ∧
      ((toolEnv.llm [.system systemUnauthed, .user "hello"] false).tool_calls ≠ [] →
        (chat_endpoint [("carol", CredsJson.corrupt "notjson")] toolEnv "carol" "hello").1 =
          ChatOutcome.reply authPromptText))) :=
  ⟨⟨by decide, by decide⟩,
    (C9_unusable_bundle_treated_as_absent [("carol", CredsJson.corrupt "notjson")] toolEnv
        "carol" "hello").1 "notjson" (by decide),
    (C9_unusable_bundle_treated_as_absent [("carol", CredsJson.corrupt "notjson")] toolEnv
        "carol" "hello").2.2.2 (by decide)⟩

/-- C10: when the model-supplied arguments (after the handler adds
`creds_json`) contain a keyword the resolved function's signature does
not accept, keyword binding raises a `TypeError` outside the adapter's
`try/except`, so the dispatch trace stays empty — no adapter body runs
and no tool-result message reaches a second completion — and the request
terminates through the handler's 500 path, whose detail wraps the
unexpected-keyword `TypeError` text. -/
theorem C10_unexpected_keyword_typeerror_500 (fs : CredStore) (env : ChatEnv)
    (uid msg : String) (cj : CredsJson) (tc : ToolCall) (rest : List ToolCall)
    (args : Kwargs) (fn : CalFn) (kv : String × String)
    (hload : (auth_utils.load_user_creds fs uid env.now env.refresh).1 = some cj)
    (hfirst : (env.llm [.system systemAuthed, .user msg] true).tool_calls = tc :: rest)
    (hargs : tc.argsJson = .ok args)
    (hfn : calFn? tc.name = some fn)
    (hmem : kv ∈ dictInsert args "creds_json" cj.raw)
    (hbad : (fn.acceptedKeys).contains kv.1 = false) :
    (chat_endpoint fs env uid msg).2.1 = [] ∧
    (∃ k2 : String, (fn.acceptedKeys).contains k2 = false ∧
      (chat_endpoint fs env uid msg).1 = ChatOutcome.http500
        ("An error occurred: " ++
          (fn.pyName ++ "() got an unexpected keyword argument " ++ k2))) := by
  have hsome : ((dictInsert args "creds_json" cj.raw).find?
      (fun kv => !((fn.acceptedKeys).contains kv.1))).isSome := by
    rw [List.find?_isSome]
    exact ⟨kv, hmem, by simp only [hbad, Bool.not_false]⟩
  obtain ⟨kv2, hkv2⟩ := Option.isSome_iff_exists.mp hsome
  have hp2 : (fn.acceptedKeys).contains kv2.1 = false := by
    have := List.find?_some hkv2
    simpa using this
  have hbind : bindCall fn (dictInsert args "creds_json" cj.raw) =
      .error (.typeError (fn.pyName ++ "() got an unexpected keyword argument " ++ kv2.1)) := by
    unfold bindCall
    rw [hkv2]
  have hdispatch : dispatchCalFn fn (dictInsert args "creds_json" cj.raw) env.api =
      .error (.typeError (fn.pyName ++ "() got an unexpected keyword argument " ++ kv2.1)) := by
    unfold dispatchCalFn
    rw [hbind]
  have hchat : chat_endpoint fs env uid msg =
      (ChatOutcome.http500 ("An error occurred: " ++
        (fn.pyName ++ "() got an unexpected keyword argument " ++ kv2.1)), [],
       (auth_utils.load_user_creds fs uid env.now env.refresh).2) := by
    unfold chat_endpoint
    rcases hE : auth_utils.load_user_creds fs uid env.now env.refresh with ⟨c, fs1⟩
    rw [hE] at hload
    simp only at hload
    subst hload
    simp [hfirst, hargs, hfn, hdispatch, PyExn.msg]
  refine ⟨by rw [hchat], kv2.1, hp2, by rw [hchat]⟩

/-- Witness for C10 at a concrete input: `bob`, authenticated, a
`list_events` tool call with the unexpected keyword `bogus`. -/
theorem C10_witness :
    ((("bogus", "x") ∈ dictInsert [("start", "a"), ("end", "b"), ("bogus", "x")] "creds_json"
        (CredsJson.valid { token := "tok", refresh_token := some "r", expiry := none }).raw) ∧
      (CalFn.list_events.acceptedKeys).contains "bogus" = false) ∧
    ((chat_endpoint bobStore badArgsEnv "bob" "hi").2.1 = [] ∧
    (∃ k2 : String, (CalFn.list_events.acceptedKeys).contains k2 = false ∧
      (chat_endpoint bobStore badArgsEnv "bob" "hi").1 = ChatOutcome.http500
        ("An error occurred: " ++
          (CalFn.list_events.pyName ++ "() got an unexpected keyword argument " ++ k2)))) :=
  ⟨⟨by decide, by decide⟩,
    C10_unexpected_keyword_typeerror_500 bobStore badArgsEnv "bob" "hi"
      (.valid { token := "tok", refresh_token := some "r", expiry := none })
      { id := "call1", name := "list_events",
        argsJson := .ok [("start", "a"), ("end", "b"), ("bogus", "x")] }
      [] [("start", "a"), ("end", "b"), ("bogus", "x")] CalFn.list_events ("bogus", "x")
      (by decide) (by decide) (by decide) (by decide) (by decide) (by decide)⟩
